import Mathlib

/-!
Verification of the pseudo-labeling module of the torch-em fork
(`torch_em/self_training/pseudo_labeling.py`).

Tensors are modelled over `ℚ`:
a rank-1 tensor (the element-wise case of the default labelers) is a
`List ℚ`, and a sample tensor of the probabilistic labeler is a
`List (List ℚ)` whose outer list is the dimension that Python's
`for sample in tensor` iterates over, with all remaining dimensions
flattened into the inner list.  Python floats appearing in scheduler
state are modelled by `Fl`, rationals extended with the IEEE special
values that the scheduler actually uses (`float('inf')`,
`float('-inf')`; `nan` only as the result of `inf * 0`).  A method that
can raise is modelled with `Option`/`Except`; `pass`-bodied methods
return the unchanged object together with Python's `None` result.
-/

set_option autoImplicit false

namespace TorchEm

/-- Python float values reachable in the scheduler: a finite rational,
the two infinities used to initialise `best`, and `nan` (arising only
from `inf * 0`, which compares false against everything). -/
inductive Fl where
  | negInf : Fl
  | fin : ℚ → Fl
  | posInf : Fl
  | nan : Fl
deriving DecidableEq

/-- `b * q` for a float `b` and a finite float `q` (IEEE semantics on
the special values). -/
def Fl.mulQ : Fl → ℚ → Fl
  | Fl.fin a, q => Fl.fin (a * q)
  | Fl.posInf, q => if 0 < q then Fl.posInf else if q < 0 then Fl.negInf else Fl.nan
  | Fl.negInf, q => if 0 < q then Fl.negInf else if q < 0 then Fl.posInf else Fl.nan
  | Fl.nan, _ => Fl.nan

/-- `b - q` for a float `b` and a finite float `q`. -/
def Fl.subQ : Fl → ℚ → Fl
  | Fl.fin a, q => Fl.fin (a - q)
  | Fl.posInf, _ => Fl.posInf
  | Fl.negInf, _ => Fl.negInf
  | Fl.nan, _ => Fl.nan

/-- `b + q` for a float `b` and a finite float `q`. -/
def Fl.addQ : Fl → ℚ → Fl
  | Fl.fin a, q => Fl.fin (a + q)
  | Fl.posInf, _ => Fl.posInf
  | Fl.negInf, _ => Fl.negInf
  | Fl.nan, _ => Fl.nan

/-- `a < b` for a finite float `a` (comparisons against `nan` are
false). -/
def Fl.ltFin : ℚ → Fl → Bool
  | _, Fl.posInf => true
  | a, Fl.fin b => decide (a < b)
  | _, Fl.negInf => false
  | _, Fl.nan => false

/-- `a > b` for a finite float `a` (comparisons against `nan` are
false). -/
def Fl.gtFin : ℚ → Fl → Bool
  | _, Fl.negInf => true
  | a, Fl.fin b => decide (b < a)
  | _, Fl.posInf => false
  | _, Fl.nan => false

/-- The result of a mask computation: the two-sided mask functions
return a float tensor (`torch.float32` zeros and ones), the one-sided
ones of the default and scheduled labelers return a boolean tensor. -/
inductive MaskResult where
  | floatMask : List ℚ → MaskResult
  | boolMask : List Bool → MaskResult

namespace DefaultPseudoLabeler

/-- State of `DefaultPseudoLabeler` (the derived `init_kwargs`
serialization dictionary, a copy of the constructor arguments, is not
modelled separately). -/
structure State where
  activation : Option (List ℚ → List ℚ)
  confidence_threshold : Option ℚ
  threshold_from_both_sides : Bool

/-- `DefaultPseudoLabeler._compute_label_mask_both_sides`: keep values
that are `>= ct` or `<= 1 - ct`, as a float tensor of zeros and ones. -/
def computeLabelMaskBothSides (ct : ℚ) (pseudo_labels : List ℚ) : List ℚ :=
  pseudo_labels.map (fun x => if ct ≤ x ∨ x ≤ 1 - ct then (1 : ℚ) else 0)

/-- `DefaultPseudoLabeler._compute_label_mask_one_side`: the boolean
tensor `pseudo_labels >= ct`. -/
def computeLabelMaskOneSide (ct : ℚ) (pseudo_labels : List ℚ) : List Bool :=
  pseudo_labels.map (fun x => decide (ct ≤ x))

/-- `DefaultPseudoLabeler.__call__`: run the teacher, optionally apply
the activation, and compute the label mask unless the confidence
threshold is `None`. -/
def call (self : State) (teacher : List ℚ → List ℚ) (input_ : List ℚ) :
    List ℚ × Option MaskResult :=
  let pseudo_labels := teacher input_
  let pseudo_labels :=
    match self.activation with
    | some act => act pseudo_labels
    | none => pseudo_labels
  match self.confidence_threshold with
  | none => (pseudo_labels, none)
  | some ct =>
    let label_mask :=
      if self.threshold_from_both_sides then
        MaskResult.floatMask (computeLabelMaskBothSides ct pseudo_labels)
      else
        MaskResult.boolMask (computeLabelMaskOneSide ct pseudo_labels)
    (pseudo_labels, some label_mask)

/-- `DefaultPseudoLabeler.step`: the body is `pass`, so the object is
unchanged and Python's `None` is returned. -/
def step (self : State) (_epoch : ℤ) : State × Option Unit :=
  (self, none)

end DefaultPseudoLabeler

namespace ProbabilisticPseudoLabeler

/-- State of `ProbabilisticPseudoLabeler` (again without the derived
`init_kwargs` dictionary). -/
structure State where
  activation : Option (List (List ℚ) → List (List ℚ))
  confidence_threshold : Option ℚ
  threshold_from_both_sides : Bool
  prior_samples : ℕ
  consensus_masking : Bool

/-- Element-wise sum of two equally-shaped rank-2 tensors. -/
def addMatrix (a b : List (List ℚ)) : List (List ℚ) :=
  List.zipWith (fun r s => List.zipWith (fun x y => x + y) r s) a b

/-- `torch.stack(ts, dim=0).sum(dim=0)` for a list of equally-shaped
rank-2 tensors. -/
def sumMatrices : List (List (List ℚ)) → List (List ℚ)
  | [] => []
  | [m] => m
  | m :: ms => addMatrix m (sumMatrices ms)

/-- Element-wise division of a rank-2 tensor by a scalar. -/
def divMatrix (m : List (List ℚ)) (c : ℚ) : List (List ℚ) :=
  m.map (fun r => r.map (fun x => x / c))

/-- Element-wise sum of two equally-shaped rank-1 tensors. -/
def addRow (a b : List ℚ) : List ℚ :=
  List.zipWith (fun x y => x + y) a b

/-- `torch.stack(rs, dim=0).sum(dim=0)` for a list of equally-shaped
rank-1 tensors. -/
def sumRows : List (List ℚ) → List ℚ
  | [] => []
  | [r] => r
  | r :: rs => addRow r (sumRows rs)

/-- Element-wise division of a rank-1 tensor by a scalar. -/
def divRow (r : List ℚ) (c : ℚ) : List ℚ :=
  r.map (fun x => x / c)

/-- `ProbabilisticPseudoLabeler._compute_label_mask_both_sides`: for
each slice of its argument along the first dimension, the float tensor
produced by `torch.where(sample >= ct or sample <= 1 - ct, 1., 0.)`. -/
def computeLabelMaskBothSides (ct : ℚ) (pseudo_labels : List (List ℚ)) :
    List (List ℚ) :=
  pseudo_labels.map
    (fun sample => sample.map (fun x => if ct ≤ x ∨ x ≤ 1 - ct then (1 : ℚ) else 0))

/-- `ProbabilisticPseudoLabeler._compute_label_mask_one_side`: for each
slice along the first dimension, `torch.where(sample >= ct, 1., 0.)`. -/
def computeLabelMaskOneSide (ct : ℚ) (pseudo_labels : List (List ℚ)) :
    List (List ℚ) :=
  pseudo_labels.map
    (fun sample => sample.map (fun x => if ct ≤ x then (1 : ℚ) else 0))

/-- `ProbabilisticPseudoLabeler.__call__`.  The teacher is modelled by
the sequence of tensors its successive `sample()` calls return after
`forward(input_)` has conditioned it (`sample i` is the result of the
i-th call).  Note the source averages the drawn samples into
`pseudo_labels` BEFORE the mask computation, so the mask functions
iterate over the first dimension of the averaged tensor, and the summed
slice masks are divided by `prior_samples`. -/
def call (self : State) (sample : ℕ → List (List ℚ)) :
    List (List ℚ) × Option (List ℚ) :=
  let pseudo_labels :=
    match self.activation with
    | some act => (List.range self.prior_samples).map (fun i => act (sample i))
    | none => (List.range self.prior_samples).map (fun i => sample i)
  let pseudo_labels := divMatrix (sumMatrices pseudo_labels) (self.prior_samples : ℚ)
  match self.confidence_threshold with
  | none => (pseudo_labels, none)
  | some ct =>
    let label_mask :=
      if self.threshold_from_both_sides then
        computeLabelMaskBothSides ct pseudo_labels
      else
        computeLabelMaskOneSide ct pseudo_labels
    let label_mask := divRow (sumRows label_mask) (self.prior_samples : ℚ)
    let label_mask :=
      if self.consensus_masking then
        label_mask.map (fun x => if x = 1 then (1 : ℚ) else 0)
      else
        label_mask
    (pseudo_labels, some label_mask)

/-- `ProbabilisticPseudoLabeler.step`: the body is `pass`. -/
def step (self : State) (_epoch : ℤ) : State × Option Unit :=
  (self, none)

end ProbabilisticPseudoLabeler

namespace ScheduledPseudoLabeler

/-- The scheduler mode, `'min'` or `'max'`. -/
inductive Mode where
  | min : Mode
  | max : Mode
deriving DecidableEq

/-- The threshold mode, `'rel'` or `'abs'`. -/
inductive ThresholdMode where
  | rel : ThresholdMode
  | abs : ThresholdMode
deriving DecidableEq

/-- State of `ScheduledPseudoLabeler` after a successful `__init__`
(again without the derived `init_kwargs` dictionary; the `verbose`
flag only controls printing and carries no modelled behavior). -/
structure State where
  activation : Option (List ℚ → List ℚ)
  confidence_threshold : Option ℚ
  threshold_from_both_sides : Bool
  mode : Mode
  factor : ℚ
  patience : ℤ
  threshold : ℚ
  threshold_mode : ThresholdMode
  min_ct : ℚ
  eps : ℚ
  best : Fl
  num_bad_epochs : ℤ
  last_epoch : ℤ

/-- `ScheduledPseudoLabeler.__init__`: validates `mode`, `factor` and
`threshold_mode` in source order, raising `ValueError` on the first
violation, and otherwise builds the initial state with
`best = inf` for mode `'min'` and `best = -inf` for mode `'max'`,
`num_bad_epochs = 0` and `last_epoch = 0`. -/
def init (activation : Option (List ℚ → List ℚ)) (confidence_threshold : Option ℚ)
    (threshold_from_both_sides : Bool) (mode : String) (factor : ℚ) (patience : ℤ)
    (threshold : ℚ) (threshold_mode : String) (min_ct : ℚ) (eps : ℚ) :
    Except String State :=
  if ¬ (mode = "min" ∨ mode = "max") then
    Except.error "Invalid mode. Mode should be min or max."
  else if 1 ≤ factor then
    Except.error "Factor should be smaller than 1.0."
  else if ¬ (threshold_mode = "rel" ∨ threshold_mode = "abs") then
    Except.error "Invalid threshold mode. Threshold mode should be rel or abs."
  else
    Except.ok
      { activation := activation
        confidence_threshold := confidence_threshold
        threshold_from_both_sides := threshold_from_both_sides
        mode := if mode = "min" then Mode.min else Mode.max
        factor := factor
        patience := patience
        threshold := threshold
        threshold_mode := if threshold_mode = "rel" then ThresholdMode.rel else ThresholdMode.abs
        min_ct := min_ct
        eps := eps
        best := if mode = "min" then Fl.posInf else Fl.negInf
        num_bad_epochs := 0
        last_epoch := 0 }

/-- `ScheduledPseudoLabeler._compute_label_mask_both_sides` (identical
to the default labeler's). -/
def computeLabelMaskBothSides (ct : ℚ) (pseudo_labels : List ℚ) : List ℚ :=
  pseudo_labels.map (fun x => if ct ≤ x ∨ x ≤ 1 - ct then (1 : ℚ) else 0)

/-- `ScheduledPseudoLabeler._compute_label_mask_one_side` (identical to
the default labeler's). -/
def computeLabelMaskOneSide (ct : ℚ) (pseudo_labels : List ℚ) : List Bool :=
  pseudo_labels.map (fun x => decide (ct ≤ x))

/-- `ScheduledPseudoLabeler.__call__` (identical to
`DefaultPseudoLabeler.__call__`). -/
def call (self : State) (teacher : List ℚ → List ℚ) (input_ : List ℚ) :
    List ℚ × Option MaskResult :=
  let pseudo_labels := teacher input_
  let pseudo_labels :=
    match self.activation with
    | some act => act pseudo_labels
    | none => pseudo_labels
  match self.confidence_threshold with
  | none => (pseudo_labels, none)
  | some ct =>
    let label_mask :=
      if self.threshold_from_both_sides then
        MaskResult.floatMask (computeLabelMaskBothSides ct pseudo_labels)
      else
        MaskResult.boolMask (computeLabelMaskOneSide ct pseudo_labels)
    (pseudo_labels, some label_mask)

/-- The comparison core of `ScheduledPseudoLabeler._is_better`,
depending only on the mode, the threshold mode and the threshold:
`a < best * (1 - threshold)`, `a < best - threshold`,
`a > best * (threshold + 1)` or `a > best + threshold`. -/
def isBetterCore (mode : Mode) (threshold_mode : ThresholdMode) (threshold : ℚ)
    (a : ℚ) (best : Fl) : Bool :=
  match mode, threshold_mode with
  | Mode.min, ThresholdMode.rel => Fl.ltFin a (Fl.mulQ best (1 - threshold))
  | Mode.min, ThresholdMode.abs => Fl.ltFin a (Fl.subQ best threshold)
  | Mode.max, ThresholdMode.rel => Fl.gtFin a (Fl.mulQ best (threshold + 1))
  | Mode.max, ThresholdMode.abs => Fl.gtFin a (Fl.addQ best threshold)

/-- `ScheduledPseudoLabeler._is_better`. -/
def isBetter (self : State) (a : ℚ) (best : Fl) : Bool :=
  isBetterCore self.mode self.threshold_mode self.threshold a best

/-- The candidate new confidence threshold of
`ScheduledPseudoLabeler._reduce_ct`: `max(ct * factor, min_ct)` for
`'rel'`, `max(ct - factor, min_ct)` for `'abs'`. -/
def candidateCt (self : State) (ct : ℚ) : ℚ :=
  match self.threshold_mode with
  | ThresholdMode.rel => max (ct * self.factor) self.min_ct
  | ThresholdMode.abs => max (ct - self.factor) self.min_ct

/-- `ScheduledPseudoLabeler._reduce_ct`: the threshold is replaced by
the candidate only when the decrease exceeds `eps`.  When the current
confidence threshold is `None` the arithmetic on it raises a
`TypeError`, modelled as `none`. -/
def reduceCt (self : State) : Option State :=
  match self.confidence_threshold with
  | none => none
  | some old_ct =>
    let new_ct := candidateCt self old_ct
    if self.eps < old_ct - new_ct then
      some { self with confidence_threshold := some new_ct }
    else
      some self

/-- `ScheduledPseudoLabeler.step`: record the epoch, compare the metric
against the best seen value, and after more than `patience` bad epochs
reduce the confidence threshold and reset the counter.  `none` models
the `TypeError` raised by `_reduce_ct` on a `None` threshold. -/
def step (self : State) (metric : ℚ) (epoch : Option ℤ) : Option State :=
  let current := metric
  let ep :=
    match epoch with
    | none => self.last_epoch + 1
    | some e => e
  let s1 := { self with last_epoch := ep }
  let s2 :=
    if isBetter s1 current s1.best then
      { s1 with best := Fl.fin current, num_bad_epochs := 0 }
    else
      { s1 with num_bad_epochs := s1.num_bad_epochs + 1 }
  if s2.patience < s2.num_bad_epochs then
    match reduceCt s2 with
    | none => none
    | some s3 => some { s3 with num_bad_epochs := 0 }
  else
    some s2

/-- Iterated `step` with default epochs, propagating the possible
`TypeError`. -/
def stepMany (self : State) (metrics : List ℚ) : Option State :=
  match metrics with
  | [] => some self
  | m :: rest =>
    match step self m none with
    | none => none
    | some s' => stepMany s' rest

/-- The floor invariant of claim C2: the configured floor is `floor`
and the confidence threshold is a value at least `floor`. -/
def FloorInv (floor : ℚ) (s : State) : Prop :=
  s.min_ct = floor ∧ ∃ c, s.confidence_threshold = some c ∧ floor ≤ c

/-- The floor invariant on the result of a step (vacuous on the
exception path). -/
def OptFloorInv (floor : ℚ) : Option State → Prop
  | none => True
  | some s => FloorInv floor s

/-- Claim C3 postcondition on the result of a step: the plateau counter
was reset and the best seen value was updated to the metric. -/
def ImprovedInv (m : ℚ) : Option State → Prop
  | none => True
  | some s => s.num_bad_epochs = 0 ∧ s.best = Fl.fin m

/-- Claim C4 postcondition on the result of a step: the confidence
threshold became the candidate `cand` when the decrease from `c`
exceeds `eps` (and stayed `c` otherwise), and the plateau counter was
reset. -/
def ReducedInv (c cand eps : ℚ) : Option State → Prop
  | none => True
  | some s =>
    s.confidence_threshold = some (if eps < c - cand then cand else c) ∧
    s.num_bad_epochs = 0

/-- Claim C9 postcondition on the result of a step: the plateau counter
lies between `0` and `p`. -/
def CounterInv (p : ℤ) : Option State → Prop
  | none => True
  | some s => 0 ≤ s.num_bad_epochs ∧ s.num_bad_epochs ≤ p

end ScheduledPseudoLabeler

/-- Whether a prediction value `x` is kept by the masking policy of
claim C6: two-sided keeps `x ≥ c` or `x ≤ 1 - c`, one-sided keeps
`x ≥ c`. -/
def keptByPolicy (c : ℚ) (threshold_from_both_sides : Bool) (x : ℚ) : Prop :=
  if threshold_from_both_sides then c ≤ x ∨ x ≤ 1 - c else c ≤ x

/-- A produced mask keeps exactly the predictions selected by the
masking policy: a mask was produced, it has the length of the
pseudo-label tensor, its entries are zeros and ones (a boolean tensor
trivially so), and an entry is `1`/`true` exactly at kept predictions. -/
def maskKeepsExactly (c : ℚ) (tfbs : Bool) (pl : List ℚ) : Option MaskResult → Prop
  | none => False
  | some (MaskResult.floatMask m) =>
    m.length = pl.length ∧
    ∀ i, i < pl.length →
      (m.getD i 0 = 1 ∨ m.getD i 0 = 0) ∧
      (m.getD i 0 = 1 ↔ keptByPolicy c tfbs (pl.getD i 0))
  | some (MaskResult.boolMask b) =>
    b.length = pl.length ∧
    ∀ i, i < pl.length → (b.getD i false = true ↔ keptByPolicy c tfbs (pl.getD i 0))

end TorchEm

open TorchEm

/-- Claim C10: `DefaultPseudoLabeler.step` and
`ProbabilisticPseudoLabeler.step` are no-ops: for every epoch argument
they return `None` and leave every attribute of the labeler (the
activation, the confidence threshold, the masking flags, and for the
probabilistic labeler also the sample count and consensus flag)
unchanged. -/
theorem default_and_probabilistic_step_noop
    (d : DefaultPseudoLabeler.State) (p : ProbabilisticPseudoLabeler.State)
    (e1 e2 : ℤ) :
    DefaultPseudoLabeler.step d e1 = (d, none) ∧
    ProbabilisticPseudoLabeler.step p e2 = (p, none) :=
  ⟨rfl, rfl⟩

/-- Claim C8: when `threshold_from_both_sides` holds and the confidence
threshold is at most `1/2`, the two-sided label mask (of the default
labeler and of the scheduled labeler, whose mask functions are
identical) is identically `1`: every value is `≥ ct` or `≤ 1 - ct`.
In particular this applies at the scheduler's default floor
`min_ct = 0.5`. -/
theorem both_sides_mask_trivial_below_half (ct : ℚ) (h : ct ≤ 1/2) (pl : List ℚ) :
    DefaultPseudoLabeler.computeLabelMaskBothSides ct pl = pl.map (fun _ => (1 : ℚ)) ∧
    ScheduledPseudoLabeler.computeLabelMaskBothSides ct pl = pl.map (fun _ => (1 : ℚ)) := by
  have key : ∀ x : ℚ, (if ct ≤ x ∨ x ≤ 1 - ct then (1 : ℚ) else 0) = 1 := by
    intro x
    rw [if_pos]
    rcases le_or_lt ct x with hx | hx
    · exact Or.inl hx
    · exact Or.inr (by linarith)
  constructor
  · unfold DefaultPseudoLabeler.computeLabelMaskBothSides
    simp only [key]
  · unfold ScheduledPseudoLabeler.computeLabelMaskBothSides
    simp only [key]

/-- Witness for C8 at `ct = 1/2` and a concrete tensor. -/
theorem both_sides_mask_trivial_below_half_witness :
    (1 : ℚ)/2 ≤ 1/2 ∧
    (DefaultPseudoLabeler.computeLabelMaskBothSides (1/2) ([3/10, 7/10] : List ℚ) =
        ([3/10, 7/10] : List ℚ).map (fun _ => (1 : ℚ)) ∧
     ScheduledPseudoLabeler.computeLabelMaskBothSides (1/2) ([3/10, 7/10] : List ℚ) =
        ([3/10, 7/10] : List ℚ).map (fun _ => (1 : ℚ))) :=
  ⟨le_refl _, both_sides_mask_trivial_below_half (1/2) (le_refl _) ([3/10, 7/10] : List ℚ)⟩

/-- Claim C1 (evidence of the code bug): with `prior_samples = 2`,
`confidence_threshold = 4/5`, one-sided masking, no activation, and a
teacher whose two drawn samples are `[[9/10]]` and `[[1/10]]`, exactly
one of the two samples passes the threshold test, so the claimed mask
entry (the fraction of passing samples) is `1/2`; but the code first
averages the samples to `[[1/2]]` and masks that average, returning the
mask `[0]`.  The averaging on line 99 happens before the mask
computation, so the masks are never per-sample. -/
theorem probabilistic_call_mask_not_sample_fraction :
    (ProbabilisticPseudoLabeler.call
        { activation := none, confidence_threshold := some (4/5),
          threshold_from_both_sides := false, prior_samples := 2,
          consensus_masking := false }
        (fun i => if i = 0 then [[(9 : ℚ)/10]] else [[(1 : ℚ)/10]])).2 = some [0] ∧
    (4 : ℚ)/5 ≤ 9/10 ∧ ¬ ((4 : ℚ)/5 ≤ 1/10) ∧ (0 : ℚ) ≠ 1/2 := by
  refine ⟨?_, by norm_num, by norm_num, by norm_num⟩
  norm_num [ProbabilisticPseudoLabeler.call, ProbabilisticPseudoLabeler.divMatrix,
    ProbabilisticPseudoLabeler.sumMatrices, ProbabilisticPseudoLabeler.addMatrix,
    ProbabilisticPseudoLabeler.computeLabelMaskOneSide, ProbabilisticPseudoLabeler.sumRows,
    ProbabilisticPseudoLabeler.divRow, List.range_succ, List.zipWith]

/-- Claim C5 (evidence of the code bug): with `prior_samples = 2`,
`consensus_masking = True`, `confidence_threshold = 4/5`, one-sided
masking and both drawn samples equal to `[[9/10]]`, every sample passes
the threshold test at the single pixel (full agreement), so the claimed
consensus mask is `[1]`; but the code masks the averaged tensor (one
batch slice), divides the summed slice masks by `prior_samples`
obtaining `[1/2]`, and the consensus comparison against `1` then yields
`[0]`. -/
theorem probabilistic_consensus_mask_rejects_full_agreement :
    (ProbabilisticPseudoLabeler.call
        { activation := none, confidence_threshold := some (4/5),
          threshold_from_both_sides := false, prior_samples := 2,
          consensus_masking := true }
        (fun _ => [[(9 : ℚ)/10]])).2 = some [0] ∧
    (4 : ℚ)/5 ≤ 9/10 := by
  refine ⟨?_, by norm_num⟩
  norm_num [ProbabilisticPseudoLabeler.call, ProbabilisticPseudoLabeler.divMatrix,
    ProbabilisticPseudoLabeler.sumMatrices, ProbabilisticPseudoLabeler.addMatrix,
    ProbabilisticPseudoLabeler.computeLabelMaskOneSide, ProbabilisticPseudoLabeler.sumRows,
    ProbabilisticPseudoLabeler.divRow, List.range_succ, List.zipWith]

/-- Claim C7: `ScheduledPseudoLabeler.__init__` raises a `ValueError`
exactly when the mode is neither `min` nor `max`, or the factor is at
least `1`, or the threshold mode is neither `rel` nor `abs`; every
other argument combination constructs successfully. -/
theorem scheduled_init_valid_iff (activation : Option (List ℚ → List ℚ))
    (confidence_threshold : Option ℚ) (threshold_from_both_sides : Bool)
    (mode : String) (factor : ℚ) (patience : ℤ) (threshold : ℚ)
    (threshold_mode : String) (min_ct eps : ℚ) :
    (∃ s, ScheduledPseudoLabeler.init activation confidence_threshold
        threshold_from_both_sides mode factor patience threshold threshold_mode
        min_ct eps = Except.ok s) ↔
      (mode = "min" ∨ mode = "max") ∧ factor < 1 ∧
        (threshold_mode = "rel" ∨ threshold_mode = "abs") := by
  constructor
  · rintro ⟨s, hs⟩
    unfold ScheduledPseudoLabeler.init at hs
    split at hs
    · exact Except.noConfusion hs
    · rename_i h1
      split at hs
      · exact Except.noConfusion hs
      · rename_i h2
        split at hs
        · exact Except.noConfusion hs
        · rename_i h3
          exact ⟨not_not.mp h1, lt_of_not_le h2, not_not.mp h3⟩
  · rintro ⟨hmode, hfac, htm⟩
    unfold ScheduledPseudoLabeler.init
    rw [if_neg (not_not.mpr hmode), if_neg (not_le.mpr hfac), if_neg (not_not.mpr htm)]
    exact ⟨_, rfl⟩

/-- `_is_better` does not depend on `last_epoch`. -/
theorem isBetter_set_last_epoch (s : ScheduledPseudoLabeler.State) (x : ℤ) (a : ℚ) (b : Fl) :
    ScheduledPseudoLabeler.isBetter { s with last_epoch := x } a b =
      ScheduledPseudoLabeler.isBetter s a b := rfl

/-- The candidate threshold of `_reduce_ct` is clamped at `min_ct`. -/
theorem candidateCt_ge_floor (s : ScheduledPseudoLabeler.State) (c : ℚ) :
    s.min_ct ≤ ScheduledPseudoLabeler.candidateCt s c := by
  unfold ScheduledPseudoLabeler.candidateCt
  split
  · exact le_max_right _ _
  · exact le_max_right _ _

/-- The candidate threshold only depends on the threshold mode, the
factor and the floor. -/
theorem candidateCt_fields (s s' : ScheduledPseudoLabeler.State)
    (hm : s'.threshold_mode = s.threshold_mode) (hf : s'.factor = s.factor)
    (hmin : s'.min_ct = s.min_ct) (c : ℚ) :
    ScheduledPseudoLabeler.candidateCt s' c = ScheduledPseudoLabeler.candidateCt s c := by
  unfold ScheduledPseudoLabeler.candidateCt
  rw [hm, hf, hmin]

/-- `_reduce_ct` on a present threshold: the eps-guarded update. -/
theorem reduceCt_some (s : ScheduledPseudoLabeler.State) (c : ℚ)
    (hct : s.confidence_threshold = some c) :
    ScheduledPseudoLabeler.reduceCt s =
      some (if s.eps < c - ScheduledPseudoLabeler.candidateCt s c then
              { s with confidence_threshold := some (ScheduledPseudoLabeler.candidateCt s c) }
            else s) := by
  unfold ScheduledPseudoLabeler.reduceCt
  rw [hct]
  dsimp only
  split <;> simp_all

/-- `_reduce_ct` changes only the confidence threshold. -/
theorem reduceCt_preserves (s s3 : ScheduledPseudoLabeler.State)
    (h : ScheduledPseudoLabeler.reduceCt s = some s3) :
    s3.best = s.best ∧ s3.num_bad_epochs = s.num_bad_epochs ∧ s3.min_ct = s.min_ct ∧
      s3.patience = s.patience := by
  unfold ScheduledPseudoLabeler.reduceCt at h
  cases hct : s.confidence_threshold with
  | none => rw [hct] at h; exact Option.noConfusion h
  | some c =>
    rw [hct] at h
    dsimp only at h
    split at h <;> (injection h with h; subst h) <;> exact ⟨rfl, rfl, rfl, rfl⟩

/-- If `_reduce_ct` succeeds and the threshold was at least the floor,
the new threshold still is. -/
theorem reduceCt_floor_aux (s s3 : ScheduledPseudoLabeler.State) (c : ℚ)
    (hred : ScheduledPseudoLabeler.reduceCt s = some s3)
    (hct : s.confidence_threshold = some c) (hle : s.min_ct ≤ c) :
    ∃ c', s3.confidence_threshold = some c' ∧ s.min_ct ≤ c' := by
  unfold ScheduledPseudoLabeler.reduceCt at hred
  rw [hct] at hred
  dsimp only at hred
  split at hred <;> (injection hred with hred; subst hred)
  · exact ⟨_, rfl, candidateCt_ge_floor s c⟩
  · exact ⟨c, hct, hle⟩

/-- A single `step` preserves the floor invariant. -/
theorem step_preserves_floor (floor : ℚ) (s : ScheduledPseudoLabeler.State) (m : ℚ)
    (e : Option ℤ) (h1 : s.min_ct = floor) (c : ℚ)
    (hct : s.confidence_threshold = some c) (hle : floor ≤ c) :
    ScheduledPseudoLabeler.OptFloorInv floor (ScheduledPseudoLabeler.step s m e) := by
  have hlemin : s.min_ct ≤ c := by rw [h1]; exact hle
  unfold ScheduledPseudoLabeler.step
  dsimp only
  cases hib : ScheduledPseudoLabeler.isBetter s m s.best <;>
      simp only [isBetter_set_last_epoch, hib, Bool.false_eq_true, if_false, if_true] <;>
      split
  · split
    · trivial
    · rename_i s3 hred
      obtain ⟨_, _, hmin, _⟩ := reduceCt_preserves _ s3 hred
      obtain ⟨c', hc', hle'⟩ := reduceCt_floor_aux _ s3 c hred hct hlemin
      exact ⟨hmin.trans h1, c', hc', by rw [← h1]; exact hle'⟩
  · exact ⟨h1, c, hct, hle⟩
  · split
    · trivial
    · rename_i s3 hred
      obtain ⟨_, _, hmin, _⟩ := reduceCt_preserves _ s3 hred
      obtain ⟨c', hc', hle'⟩ := reduceCt_floor_aux _ s3 c hred hct hlemin
      exact ⟨hmin.trans h1, c', hc', by rw [← h1]; exact hle'⟩
  · exact ⟨h1, c, hct, hle⟩

/-- Iterated steps preserve the floor invariant. -/
theorem stepMany_floor (floor : ℚ) (ms : List ℚ) (s : ScheduledPseudoLabeler.State)
    (h1 : s.min_ct = floor) (c : ℚ) (hct : s.confidence_threshold = some c)
    (hle : floor ≤ c) :
    ScheduledPseudoLabeler.OptFloorInv floor (ScheduledPseudoLabeler.stepMany s ms) := by
  induction ms generalizing s c with
  | nil => exact ⟨h1, c, hct, hle⟩
  | cons m rest ih =>
    unfold ScheduledPseudoLabeler.stepMany
    cases hstep : ScheduledPseudoLabeler.step s m none with
    | none => trivial
    | some s' =>
      have h := step_preserves_floor floor s m none h1 c hct hle
      rw [hstep] at h
      obtain ⟨h1', c', hct', hle'⟩ := h
      exact ih s' h1' c' hct' hle'

/-- Claim C2: starting from any scheduler state whose confidence
threshold is at least the configured floor `min_ct`, no sequence of
`step(metric)` calls can bring the confidence threshold below that
floor. -/
theorem scheduled_ct_never_below_floor (s : ScheduledPseudoLabeler.State) (c : ℚ)
    (hct : s.confidence_threshold = some c) (hle : s.min_ct ≤ c) (ms : List ℚ) :
    ScheduledPseudoLabeler.OptFloorInv s.min_ct (ScheduledPseudoLabeler.stepMany s ms) :=
  stepMany_floor s.min_ct ms s rfl c hct hle

/-- Witness for C2 at a concrete configuration and metric sequence. -/
theorem scheduled_ct_never_below_floor_witness :
    ({ activation := none, confidence_threshold := some 1,
       threshold_from_both_sides := true, mode := ScheduledPseudoLabeler.Mode.min,
       factor := 1/4, patience := 0, threshold := 1/10000,
       threshold_mode := ScheduledPseudoLabeler.ThresholdMode.abs, min_ct := 1/2,
       eps := 1/100000000, best := Fl.posInf, num_bad_epochs := 0,
       last_epoch := 0 } : ScheduledPseudoLabeler.State).confidence_threshold = some 1 ∧
    ({ activation := none, confidence_threshold := some 1,
       threshold_from_both_sides := true, mode := ScheduledPseudoLabeler.Mode.min,
       factor := 1/4, patience := 0, threshold := 1/10000,
       threshold_mode := ScheduledPseudoLabeler.ThresholdMode.abs, min_ct := 1/2,
       eps := 1/100000000, best := Fl.posInf, num_bad_epochs := 0,
       last_epoch := 0 } : ScheduledPseudoLabeler.State).min_ct ≤ 1 ∧
    ScheduledPseudoLabeler.OptFloorInv
      ({ activation := none, confidence_threshold := some 1,
         threshold_from_both_sides := true, mode := ScheduledPseudoLabeler.Mode.min,
         factor := 1/4, patience := 0, threshold := 1/10000,
         threshold_mode := ScheduledPseudoLabeler.ThresholdMode.abs, min_ct := 1/2,
         eps := 1/100000000, best := Fl.posInf, num_bad_epochs := 0,
         last_epoch := 0 } : ScheduledPseudoLabeler.State).min_ct
      (ScheduledPseudoLabeler.stepMany
        { activation := none, confidence_threshold := some 1,
          threshold_from_both_sides := true, mode := ScheduledPseudoLabeler.Mode.min,
          factor := 1/4, patience := 0, threshold := 1/10000,
          threshold_mode := ScheduledPseudoLabeler.ThresholdMode.abs, min_ct := 1/2,
          eps := 1/100000000, best := Fl.posInf, num_bad_epochs := 0,
          last_epoch := 0 } [5, 7, 9]) :=
  ⟨rfl, by norm_num, scheduled_ct_never_below_floor _ 1 rfl (by norm_num) [5, 7, 9]⟩

/-- Claim C3: whenever `step(metric)` observes an improving metric
(better than the best seen value under the configured `mode` and
`threshold_mode` comparison), the plateau counter `num_bad_epochs` is
reset to zero and the best seen value is updated to that metric. -/
theorem scheduled_step_improving_resets_counter (s : ScheduledPseudoLabeler.State)
    (m : ℚ) (e : Option ℤ)
    (hib : ScheduledPseudoLabeler.isBetter s m s.best = true) :
    ScheduledPseudoLabeler.ImprovedInv m (ScheduledPseudoLabeler.step s m e) := by
  unfold ScheduledPseudoLabeler.step
  dsimp only
  simp only [isBetter_set_last_epoch, hib, if_true]
  split
  · split
    · trivial
    · rename_i s3 hred
      obtain ⟨hb, _, _, _⟩ := reduceCt_preserves _ s3 hred
      exact ⟨rfl, hb⟩
  · exact ⟨rfl, rfl⟩

/-- Witness for C3 at a concrete state (mode `min`, `best = inf`, so
any finite metric improves). -/
theorem scheduled_step_improving_resets_counter_witness :
    ScheduledPseudoLabeler.isBetter
      { activation := none, confidence_threshold := some (9/10),
        threshold_from_both_sides := true, mode := ScheduledPseudoLabeler.Mode.min,
        factor := 1/4, patience := 10, threshold := 1/10000,
        threshold_mode := ScheduledPseudoLabeler.ThresholdMode.abs, min_ct := 1/2,
        eps := 1/100000000, best := Fl.posInf, num_bad_epochs := 3,
        last_epoch := 0 } 5
      ({ activation := none, confidence_threshold := some (9/10),
         threshold_from_both_sides := true, mode := ScheduledPseudoLabeler.Mode.min,
         factor := 1/4, patience := 10, threshold := 1/10000,
         threshold_mode := ScheduledPseudoLabeler.ThresholdMode.abs, min_ct := 1/2,
         eps := 1/100000000, best := Fl.posInf, num_bad_epochs := 3,
         last_epoch := 0 } : ScheduledPseudoLabeler.State).best = true ∧
    ScheduledPseudoLabeler.ImprovedInv 5
      (ScheduledPseudoLabeler.step
        { activation := none, confidence_threshold := some (9/10),
          threshold_from_both_sides := true, mode := ScheduledPseudoLabeler.Mode.min,
          factor := 1/4, patience := 10, threshold := 1/10000,
          threshold_mode := ScheduledPseudoLabeler.ThresholdMode.abs, min_ct := 1/2,
          eps := 1/100000000, best := Fl.posInf, num_bad_epochs := 3,
          last_epoch := 0 } 5 none) :=
  ⟨rfl, scheduled_step_improving_resets_counter _ 5 none rfl⟩

/-- The confidence threshold and plateau counter after a successful
`_reduce_ct`: the eps-guarded update of the threshold. -/
theorem reduceCt_ct (s s3 : ScheduledPseudoLabeler.State) (c : ℚ)
    (hred : ScheduledPseudoLabeler.reduceCt s = some s3)
    (hct : s.confidence_threshold = some c) :
    s3.confidence_threshold =
      some (if s.eps < c - ScheduledPseudoLabeler.candidateCt s c then
              ScheduledPseudoLabeler.candidateCt s c
            else c) ∧
    s3.num_bad_epochs = s.num_bad_epochs := by
  unfold ScheduledPseudoLabeler.reduceCt at hred
  rw [hct] at hred
  dsimp only at hred
  split at hred <;> (injection hred with hred; subst hred)
  · rename_i hcond
    exact ⟨by rw [if_pos hcond], rfl⟩
  · rename_i hcond
    exact ⟨by rw [if_neg hcond]; exact hct, rfl⟩

/-- Claim C4 (amended): when the incremented plateau counter exceeds
the patience budget, `step` computes the candidate threshold
(`ct * factor` for `rel`, `ct - factor` for `abs`, clamped at
`min_ct`), installs it only when the decrease exceeds `eps` (otherwise
the threshold is unchanged), and resets the bad-epoch counter to
zero. -/
theorem scheduled_step_plateau_reduces_ct (s : ScheduledPseudoLabeler.State)
    (m : ℚ) (e : Option ℤ) (c : ℚ)
    (hct : s.confidence_threshold = some c)
    (hib : ScheduledPseudoLabeler.isBetter s m s.best = false)
    (hp : s.patience < s.num_bad_epochs + 1) :
    ScheduledPseudoLabeler.ReducedInv c (ScheduledPseudoLabeler.candidateCt s c) s.eps
      (ScheduledPseudoLabeler.step s m e) := by
  unfold ScheduledPseudoLabeler.step
  dsimp only
  simp only [isBetter_set_last_epoch, hib, Bool.false_eq_true, if_false]
  rw [if_pos hp]
  split
  · trivial
  · rename_i s3 hred
    have h := reduceCt_ct _ s3 c hred hct
    exact ⟨h.1, rfl⟩

/-- Witness for C4 (amended) at a concrete plateaued state. -/
theorem scheduled_step_plateau_reduces_ct_witness :
    ({ activation := none, confidence_threshold := some 1,
       threshold_from_both_sides := true, mode := ScheduledPseudoLabeler.Mode.min,
       factor := 1/4, patience := 0, threshold := 1/10000,
       threshold_mode := ScheduledPseudoLabeler.ThresholdMode.abs, min_ct := 1/2,
       eps := 1/100000000, best := Fl.negInf, num_bad_epochs := 0,
       last_epoch := 0 } : ScheduledPseudoLabeler.State).confidence_threshold = some 1 ∧
    ScheduledPseudoLabeler.isBetter
      { activation := none, confidence_threshold := some 1,
        threshold_from_both_sides := true, mode := ScheduledPseudoLabeler.Mode.min,
        factor := 1/4, patience := 0, threshold := 1/10000,
        threshold_mode := ScheduledPseudoLabeler.ThresholdMode.abs, min_ct := 1/2,
        eps := 1/100000000, best := Fl.negInf, num_bad_epochs := 0,
        last_epoch := 0 } 5
      ({ activation := none, confidence_threshold := some 1,
         threshold_from_both_sides := true, mode := ScheduledPseudoLabeler.Mode.min,
         factor := 1/4, patience := 0, threshold := 1/10000,
         threshold_mode := ScheduledPseudoLabeler.ThresholdMode.abs, min_ct := 1/2,
         eps := 1/100000000, best := Fl.negInf, num_bad_epochs := 0,
         last_epoch := 0 } : ScheduledPseudoLabeler.State).best = false ∧
    ((0 : ℤ) < 0 + 1) ∧
    ScheduledPseudoLabeler.ReducedInv 1
      (ScheduledPseudoLabeler.candidateCt
        { activation := none, confidence_threshold := some 1,
          threshold_from_both_sides := true, mode := ScheduledPseudoLabeler.Mode.min,
          factor := 1/4, patience := 0, threshold := 1/10000,
          threshold_mode := ScheduledPseudoLabeler.ThresholdMode.abs, min_ct := 1/2,
          eps := 1/100000000, best := Fl.negInf, num_bad_epochs := 0,
          last_epoch := 0 } 1)
      ({ activation := none, confidence_threshold := some 1,
         threshold_from_both_sides := true, mode := ScheduledPseudoLabeler.Mode.min,
         factor := 1/4, patience := 0, threshold := 1/10000,
         threshold_mode := ScheduledPseudoLabeler.ThresholdMode.abs, min_ct := 1/2,
         eps := 1/100000000, best := Fl.negInf, num_bad_epochs := 0,
         last_epoch := 0 } : ScheduledPseudoLabeler.State).eps
      (ScheduledPseudoLabeler.step
        { activation := none, confidence_threshold := some 1,
          threshold_from_both_sides := true, mode := ScheduledPseudoLabeler.Mode.min,
          factor := 1/4, patience := 0, threshold := 1/10000,
          threshold_mode := ScheduledPseudoLabeler.ThresholdMode.abs, min_ct := 1/2,
          eps := 1/100000000, best := Fl.negInf, num_bad_epochs := 0,
          last_epoch := 0 } 5 none) :=
  ⟨rfl, rfl, by norm_num,
    scheduled_step_plateau_reduces_ct _ 5 none 1 rfl rfl (by norm_num)⟩

/-- Counterexample to claim C4 as stated: `threshold_mode = abs`,
threshold `1`, `factor = 1/1000000000` and `eps = 1/100000000`.  The
plateau is exceeded, but because the decrease `factor` is below `eps`,
`_reduce_ct` leaves the confidence threshold at `1` instead of the
claimed `max(1 - factor, min_ct)`. -/
theorem scheduled_step_reduce_skips_subeps_decay :
    (ScheduledPseudoLabeler.step
        { activation := none, confidence_threshold := some 1,
          threshold_from_both_sides := true, mode := ScheduledPseudoLabeler.Mode.min,
          factor := 1/1000000000, patience := 0, threshold := 1/10000,
          threshold_mode := ScheduledPseudoLabeler.ThresholdMode.abs, min_ct := 1/2,
          eps := 1/100000000, best := Fl.negInf, num_bad_epochs := 0,
          last_epoch := 0 } 5 none).map (fun t => t.confidence_threshold) =
      some (some 1) ∧
    max ((1 : ℚ) - 1/1000000000) (1/2) ≠ 1 := by
  constructor
  · norm_num [ScheduledPseudoLabeler.step, ScheduledPseudoLabeler.isBetter,
      ScheduledPseudoLabeler.isBetterCore, Fl.subQ, Fl.ltFin,
      ScheduledPseudoLabeler.reduceCt, ScheduledPseudoLabeler.candidateCt, max_def]
  · rw [max_eq_left (by norm_num)]
    norm_num

/-- Claim C9 (amended): provided the patience budget is nonnegative
(and the counter is nonnegative, as it is from initialization), after
every `step` call the plateau counter satisfies
`0 ≤ num_bad_epochs ≤ patience`: an increment that would leave it
strictly above `patience` is reset to zero within the same call. -/
theorem scheduled_step_counter_bounded (s : ScheduledPseudoLabeler.State)
    (m : ℚ) (e : Option ℤ) (h0 : 0 ≤ s.num_bad_epochs) (hp : 0 ≤ s.patience) :
    ScheduledPseudoLabeler.CounterInv s.patience (ScheduledPseudoLabeler.step s m e) := by
  unfold ScheduledPseudoLabeler.step
  dsimp only
  cases hib : ScheduledPseudoLabeler.isBetter s m s.best <;>
      simp only [isBetter_set_last_epoch, hib, Bool.false_eq_true, if_false, if_true] <;>
      split
  · split
    · trivial
    · exact ⟨le_refl 0, hp⟩
  · refine ⟨?_, ?_⟩ <;> (dsimp only; omega)
  · split
    · trivial
    · exact ⟨le_refl 0, hp⟩
  · exact ⟨le_refl 0, hp⟩

/-- Witness for C9 (amended) at a concrete state. -/
theorem scheduled_step_counter_bounded_witness :
    ((0 : ℤ) ≤ 3) ∧ ((0 : ℤ) ≤ 10) ∧
    ScheduledPseudoLabeler.CounterInv
      ({ activation := none, confidence_threshold := some (9/10),
         threshold_from_both_sides := true, mode := ScheduledPseudoLabeler.Mode.min,
         factor := 1/4, patience := 10, threshold := 1/10000,
         threshold_mode := ScheduledPseudoLabeler.ThresholdMode.abs, min_ct := 1/2,
         eps := 1/100000000, best := Fl.negInf, num_bad_epochs := 3,
         last_epoch := 0 } : ScheduledPseudoLabeler.State).patience
      (ScheduledPseudoLabeler.step
        { activation := none, confidence_threshold := some (9/10),
          threshold_from_both_sides := true, mode := ScheduledPseudoLabeler.Mode.min,
          factor := 1/4, patience := 10, threshold := 1/10000,
          threshold_mode := ScheduledPseudoLabeler.ThresholdMode.abs, min_ct := 1/2,
          eps := 1/100000000, best := Fl.negInf, num_bad_epochs := 3,
          last_epoch := 0 } 5 none) :=
  ⟨by norm_num, by norm_num,
    scheduled_step_counter_bounded _ 5 none (by norm_num) (by norm_num)⟩

/-- Counterexample to claim C9 as stated: with a negative patience
budget (`patience = -1`, accepted by `__init__`), after a `step` call
the counter is `0`, which is strictly above `patience`, so
`num_bad_epochs ≤ patience` fails. -/
theorem scheduled_step_counter_exceeds_patience :
    (ScheduledPseudoLabeler.step
        { activation := none, confidence_threshold := some (9/10),
          threshold_from_both_sides := true, mode := ScheduledPseudoLabeler.Mode.min,
          factor := 1/20, patience := -1, threshold := 1/10000,
          threshold_mode := ScheduledPseudoLabeler.ThresholdMode.abs, min_ct := 1/2,
          eps := 1/100000000, best := Fl.negInf, num_bad_epochs := 0,
          last_epoch := 0 } 5 none).map (fun t => t.num_bad_epochs) = some 0 ∧
    (ScheduledPseudoLabeler.step
        { activation := none, confidence_threshold := some (9/10),
          threshold_from_both_sides := true, mode := ScheduledPseudoLabeler.Mode.min,
          factor := 1/20, patience := -1, threshold := 1/10000,
          threshold_mode := ScheduledPseudoLabeler.ThresholdMode.abs, min_ct := 1/2,
          eps := 1/100000000, best := Fl.negInf, num_bad_epochs := 0,
          last_epoch := 0 } 5 none).map (fun t => t.patience) = some (-1) ∧
    ¬ ((0 : ℤ) ≤ -1) := by
  refine ⟨?_, ?_, by norm_num⟩ <;>
    norm_num [ScheduledPseudoLabeler.step, ScheduledPseudoLabeler.isBetter,
      ScheduledPseudoLabeler.isBetterCore, Fl.subQ, Fl.ltFin,
      ScheduledPseudoLabeler.reduceCt, ScheduledPseudoLabeler.candidateCt, max_def]

/-- `getD` after `map` at an in-bounds index. -/
theorem getD_map_eq {α β : Type} (f : α → β) (l : List α) (i : ℕ) (h : i < l.length)
    (d : α) (d' : β) : (l.map f).getD i d' = f (l.getD i d) := by
  induction l generalizing i with
  | nil => simp at h
  | cons a t ih =>
    cases i with
    | zero => rfl
    | succ n =>
      simp only [List.map_cons, List.getD_cons_succ]
      exact ih n (by simpa using h)

/-- The two-sided float mask keeps exactly the two-sided policy. -/
theorem floatMask_keeps (ct : ℚ) (pl : List ℚ) :
    maskKeepsExactly ct true pl
      (some (MaskResult.floatMask (DefaultPseudoLabeler.computeLabelMaskBothSides ct pl))) := by
  unfold DefaultPseudoLabeler.computeLabelMaskBothSides
  refine ⟨List.length_map _ _, ?_⟩
  intro i hi
  rw [getD_map_eq _ _ _ hi 0]
  have hkept : keptByPolicy ct true (pl.getD i 0) ↔
      (ct ≤ pl.getD i 0 ∨ pl.getD i 0 ≤ 1 - ct) := by
    unfold keptByPolicy
    exact if_pos rfl ▸ Iff.rfl
  constructor
  · by_cases hx : ct ≤ pl.getD i 0 ∨ pl.getD i 0 ≤ 1 - ct
    · left
      rw [if_pos hx]
    · right
      rw [if_neg hx]
  · rw [hkept]
    by_cases hx : ct ≤ pl.getD i 0 ∨ pl.getD i 0 ≤ 1 - ct
    · rw [if_pos hx]
      exact iff_of_true rfl hx
    · rw [if_neg hx]
      exact iff_of_false (by norm_num) hx

/-- The one-sided boolean mask keeps exactly the one-sided policy. -/
theorem boolMask_keeps (ct : ℚ) (pl : List ℚ) :
    maskKeepsExactly ct false pl
      (some (MaskResult.boolMask (DefaultPseudoLabeler.computeLabelMaskOneSide ct pl))) := by
  unfold DefaultPseudoLabeler.computeLabelMaskOneSide
  refine ⟨List.length_map _ _, ?_⟩
  intro i hi
  rw [getD_map_eq _ _ _ hi 0]
  have hkept : keptByPolicy ct false (pl.getD i 0) ↔ ct ≤ pl.getD i 0 := by
    unfold keptByPolicy
    exact if_neg Bool.false_ne_true ▸ Iff.rfl
  rw [hkept]
  simp only [decide_eq_true_eq]

/-- Claim C6: for the default and the scheduled pseudo-labeler called
with a non-`None` confidence threshold, the produced mask keeps exactly
the predictions `≥` the threshold (one-sided) respectively those `≥`
the threshold together with those `≤ 1 - threshold` (two-sided). -/
theorem labeler_call_mask_keeps_exactly
    (d : DefaultPseudoLabeler.State) (sc : ScheduledPseudoLabeler.State)
    (teacher : List ℚ → List ℚ) (input_ : List ℚ) (c1 c2 : ℚ)
    (h1 : d.confidence_threshold = some c1)
    (h2 : sc.confidence_threshold = some c2) :
    maskKeepsExactly c1 d.threshold_from_both_sides
      (DefaultPseudoLabeler.call d teacher input_).1
      (DefaultPseudoLabeler.call d teacher input_).2 ∧
    maskKeepsExactly c2 sc.threshold_from_both_sides
      (ScheduledPseudoLabeler.call sc teacher input_).1
      (ScheduledPseudoLabeler.call sc teacher input_).2 := by
  constructor
  · unfold DefaultPseudoLabeler.call
    rw [h1]
    dsimp only
    cases htf : d.threshold_from_both_sides <;>
        simp only [htf, if_true, if_false, Bool.false_eq_true]
    · exact boolMask_keeps c1 _
    · exact floatMask_keeps c1 _
  · unfold ScheduledPseudoLabeler.call
    rw [h2]
    dsimp only
    cases htf : sc.threshold_from_both_sides <;>
        simp only [htf, if_true, if_false, Bool.false_eq_true]
    · exact boolMask_keeps c2 _
    · exact floatMask_keeps c2 _

/-- Witness for C6: one labeler per masking mode, identity teacher, a
concrete input tensor. -/
theorem labeler_call_mask_keeps_exactly_witness :
    ({ activation := none, confidence_threshold := some (4/5),
       threshold_from_both_sides := true } : DefaultPseudoLabeler.State).confidence_threshold =
        some (4/5) ∧
    ({ activation := none, confidence_threshold := some (3/5),
       threshold_from_both_sides := false, mode := ScheduledPseudoLabeler.Mode.min,
       factor := 1/4, patience := 10, threshold := 1/10000,
       threshold_mode := ScheduledPseudoLabeler.ThresholdMode.abs, min_ct := 1/2,
       eps := 1/100000000, best := Fl.posInf, num_bad_epochs := 0,
       last_epoch := 0 } : ScheduledPseudoLabeler.State).confidence_threshold = some (3/5) ∧
    (maskKeepsExactly (4/5)
      ({ activation := none, confidence_threshold := some (4/5),
         threshold_from_both_sides := true } : DefaultPseudoLabeler.State).threshold_from_both_sides
      (DefaultPseudoLabeler.call
        { activation := none, confidence_threshold := some (4/5),
          threshold_from_both_sides := true } (fun l => l) [1/10, 9/10]).1
      (DefaultPseudoLabeler.call
        { activation := none, confidence_threshold := some (4/5),
          threshold_from_both_sides := true } (fun l => l) [1/10, 9/10]).2 ∧
    maskKeepsExactly (3/5)
      ({ activation := none, confidence_threshold := some (3/5),
         threshold_from_both_sides := false, mode := ScheduledPseudoLabeler.Mode.min,
         factor := 1/4, patience := 10, threshold := 1/10000,
         threshold_mode := ScheduledPseudoLabeler.ThresholdMode.abs, min_ct := 1/2,
         eps := 1/100000000, best := Fl.posInf, num_bad_epochs := 0,
         last_epoch := 0 } : ScheduledPseudoLabeler.State).threshold_from_both_sides
      (ScheduledPseudoLabeler.call
        { activation := none, confidence_threshold := some (3/5),
          threshold_from_both_sides := false, mode := ScheduledPseudoLabeler.Mode.min,
          factor := 1/4, patience := 10, threshold := 1/10000,
          threshold_mode := ScheduledPseudoLabeler.ThresholdMode.abs, min_ct := 1/2,
          eps := 1/100000000, best := Fl.posInf, num_bad_epochs := 0,
          last_epoch := 0 } (fun l => l) [1/10, 9/10]).1
      (ScheduledPseudoLabeler.call
        { activation := none, confidence_threshold := some (3/5),
          threshold_from_both_sides := false, mode := ScheduledPseudoLabeler.Mode.min,
          factor := 1/4, patience := 10, threshold := 1/10000,
          threshold_mode := ScheduledPseudoLabeler.ThresholdMode.abs, min_ct := 1/2,
          eps := 1/100000000, best := Fl.posInf, num_bad_epochs := 0,
          last_epoch := 0 } (fun l => l) [1/10, 9/10]).2) :=
  ⟨rfl, rfl, labeler_call_mask_keeps_exactly _ _ (fun l => l) [1/10, 9/10] (4/5) (3/5) rfl rfl⟩
